import Mathlib

/-!
Verification of the nglscenes state-synchronization core.

This file gives a shallow embedding of the repository's data model and
operations (`nglscenes/utils.py`, `nglscenes/layers.py`,
`nglscenes/scenes.py`, `nglscenes/local.py`) and settles the frozen claims
about it.

Python values that occur in scene/layer states are modelled by the
inductive type `PyVal`.  Containers carry a `wrapped` flag recording
whether they are instrumented (`CallBackDict` / `CallBackList` from
`utils.py`) or plain (`dict` / `list`); Python `==` on these classes
ignores the class, which is mirrored by `pyEqV` below.  Python floats
never take part in arithmetic in the modelled code, so a float is carried
as its source literal string.
-/

namespace Nglscenes

/-- A Python value as it occurs in scene/layer states: JSON leaves plus
dictionaries and lists.  The `Bool` argument of `dict`/`list` is `true`
when the container is a `CallBackDict`/`CallBackList` wrapper and `false`
for a plain `dict`/`list`. -/
inductive PyVal : Type where
  | str : String → PyVal
  | int : Int → PyVal
  | float : String → PyVal
  | bool : Bool → PyVal
  | null : PyVal
  | dict : Bool → List (String × PyVal) → PyVal
  | list : Bool → List PyVal → PyVal

/-!
`add_on_change_callback` (utils.py:105-134) with `recursive=True`:
for a `dict` it rebuilds the entries with recursively converted values
(the comprehension yields a plain dict, so the `CallBackDict` wrap then
always applies) and for a `list` likewise; all other values are returned
unchanged.  The callback itself plays no role in the stored structure, so
the embedding only records the wrapping.
-/

mutual

/-- Model of `utils.add_on_change_callback(x, callback, recursive=True)`:
recursively convert containers to their wrapped (callback-carrying)
variants. -/
def add_on_change_callback : PyVal → PyVal
  | .dict _ es => .dict true (addCBEntries es)
  | .list _ xs => .list true (addCBList xs)
  | v => v

/-- Recursive conversion of dict entries (the comprehension on
utils.py:126). -/
def addCBEntries : List (String × PyVal) → List (String × PyVal)
  | [] => []
  | (k, v) :: r => (k, add_on_change_callback v) :: addCBEntries r

/-- Recursive conversion of list elements (the comprehension on
utils.py:131). -/
def addCBList : List PyVal → List PyVal
  | [] => []
  | v :: r => add_on_change_callback v :: addCBList r

end

mutual

/-- Model of `utils.remove_callback(x, recursive=True)`: recursively
convert wrapped containers back to plain `dict`/`list`. -/
def remove_callback : PyVal → PyVal
  | .dict _ es => .dict false (remCBEntries es)
  | .list _ xs => .list false (remCBList xs)
  | v => v

/-- Recursive unwrapping of dict entries (utils.py:153). -/
def remCBEntries : List (String × PyVal) → List (String × PyVal)
  | [] => []
  | (k, v) :: r => (k, remove_callback v) :: remCBEntries r

/-- Recursive unwrapping of list elements (utils.py:158). -/
def remCBList : List PyVal → List PyVal
  | [] => []
  | v :: r => remove_callback v :: remCBList r

end

mutual

/-- `noWrapper v` holds when no `CallBackDict`/`CallBackList` wrapper
occurs anywhere in `v`, i.e. `v` is a plain nested structure. -/
def noWrapper : PyVal → Bool
  | .dict w es => !w && noWrapperEntries es
  | .list w xs => !w && noWrapperList xs
  | _ => true

/-- `noWrapper` for dict entries. -/
def noWrapperEntries : List (String × PyVal) → Bool
  | [] => true
  | (_, v) :: r => noWrapper v && noWrapperEntries r

/-- `noWrapper` for list elements. -/
def noWrapperList : List PyVal → Bool
  | [] => true
  | v :: r => noWrapper v && noWrapperList r

end

mutual

/-- On wrapper-free values, `remove_callback` inverts
`add_on_change_callback` exactly. -/
theorem remove_add_val : ∀ (v : PyVal), noWrapper v = true →
    remove_callback (add_on_change_callback v) = v
  | .str _, _ => rfl
  | .int _, _ => rfl
  | .float _, _ => rfl
  | .bool _, _ => rfl
  | .null, _ => rfl
  | .dict w es, h => by
      have h' : (!w && noWrapperEntries es) = true := h
      rw [Bool.and_eq_true] at h'
      obtain ⟨hw, he⟩ := h'
      cases w with
      | true => simp at hw
      | false =>
          show PyVal.dict false (remCBEntries (addCBEntries es)) = PyVal.dict false es
          rw [remove_add_entries es he]
  | .list w xs, h => by
      have h' : (!w && noWrapperList xs) = true := h
      rw [Bool.and_eq_true] at h'
      obtain ⟨hw, hx⟩ := h'
      cases w with
      | true => simp at hw
      | false =>
          show PyVal.list false (remCBList (addCBList xs)) = PyVal.list false xs
          rw [remove_add_list xs hx]

/-- Entry-wise version of `remove_add_val`. -/
theorem remove_add_entries : ∀ (es : List (String × PyVal)),
    noWrapperEntries es = true → remCBEntries (addCBEntries es) = es
  | [], _ => rfl
  | (k, v) :: r, h => by
      have h' : (noWrapper v && noWrapperEntries r) = true := h
      rw [Bool.and_eq_true] at h'
      show (k, remove_callback (add_on_change_callback v)) ::
          remCBEntries (addCBEntries r) = (k, v) :: r
      rw [remove_add_val v h'.1, remove_add_entries r h'.2]

/-- Element-wise version of `remove_add_val`. -/
theorem remove_add_list : ∀ (xs : List PyVal),
    noWrapperList xs = true → remCBList (addCBList xs) = xs
  | [], _ => rfl
  | v :: r, h => by
      have h' : (noWrapper v && noWrapperList r) = true := h
      rw [Bool.and_eq_true] at h'
      show remove_callback (add_on_change_callback v) :: remCBList (addCBList r)
          = v :: r
      rw [remove_add_val v h'.1, remove_add_list r h'.2]

end

/-- C1: for every nested structure `x` built from mappings, sequences and
JSON-compatible leaves (no wrapper anywhere), applying
`remove_callback` after `add_on_change_callback` returns `x` itself,
structurally equal and with no `CallBackDict`/`CallBackList` wrapper
remaining at any depth. -/
theorem C1_remove_add_callback_roundtrip (x : PyVal) (h : noWrapper x = true) :
    remove_callback (add_on_change_callback x) = x ∧
    noWrapper (remove_callback (add_on_change_callback x)) = true := by
  refine ⟨remove_add_val x h, ?_⟩
  rw [remove_add_val x h]
  exact h

/-- Concrete nested sample value used as the round-trip witness. -/
def sampleNested : PyVal :=
  .dict false
    [("position", .list false [.int 4, .int 7, .int 9]),
     ("layout", .str "xy-3d"),
     ("meta", .dict false [("visible", .bool true), ("extra", .null)])]

/-- Witness for C1 at a concrete nested mapping. -/
theorem C1_remove_add_callback_roundtrip_witness :
    noWrapper sampleNested = true ∧
    (remove_callback (add_on_change_callback sampleNested) = sampleNested ∧
      noWrapper (remove_callback (add_on_change_callback sampleNested)) = true) :=
  ⟨rfl, C1_remove_add_callback_roundtrip sampleNested rfl⟩

/-! ## Python value helpers: `str()`, `==`, dict primitives -/

/-- The apostrophe character, written via its code point. -/
def squote : Char := Char.ofNat 39

/-- The apostrophe as a one-character string (used by Python `repr` of
strings and by `Scene.to_json`'s `.replace`). -/
def sq : String := String.singleton squote

mutual

/-- Model of Python `str(v)` for state values: identity on strings,
decimal rendering of ints, `True`/`False`/`None` for the other leaves, a
float is shown as its literal, and containers fall back to their `repr`.
No modelled operation ever applies `str()` to a container (segment IDs
and layer names are leaves), but the definition is total anyway. -/
def pyStr : PyVal → String
  | .str s => s
  | v => pyRepr v

/-- Model of Python `repr(v)` (sufficient for the values reachable here;
string escaping inside `repr` is not modelled since no reachable string
contains quotes). -/
def pyRepr : PyVal → String
  | .str s => sq ++ s ++ sq
  | .int n => toString n
  | .float lit => lit
  | .bool b => if b then "True" else "False"
  | .null => "None"
  | .dict _ es => "\x7b" ++ pyReprEntries es ++ "\x7d"
  | .list _ xs => "[" ++ pyReprList xs ++ "]"

/-- `repr` of dict entries, comma-separated. -/
def pyReprEntries : List (String × PyVal) → String
  | [] => ""
  | [(k, v)] => sq ++ k ++ sq ++ ": " ++ pyRepr v
  | (k, v) :: r => sq ++ k ++ sq ++ ": " ++ pyRepr v ++ ", " ++ pyReprEntries r

/-- `repr` of list elements, comma-separated. -/
def pyReprList : List PyVal → String
  | [] => ""
  | [v] => pyRepr v
  | v :: r => pyRepr v ++ ", " ++ pyReprList r

end

/-- Lookup of a key in a dict's entry list (Python `d[k]` / `d.get(k)`;
keys are unique in every dict built by the modelled code). -/
def lookupE : List (String × PyVal) → String → Option PyVal
  | [], _ => none
  | (k, v) :: r, key => if k == key then some v else lookupE r key

mutual

/-- Model of Python `==` on state values.  Dict/list equality ignores the
`CallBackDict`/`CallBackList` class (Python compares them as plain
containers); dicts compare order-insensitively, lists element-wise;
`True == 1` style bool/int cross-equality is included.  Float equality is
by literal, which is exact for the values occurring here (floats are
only ever compared to themselves). -/
def pyEqV : PyVal → PyVal → Bool
  | .str a, .str b => a == b
  | .int a, .int b => a == b
  | .float a, .float b => a == b
  | .bool a, .bool b => a == b
  | .bool a, .int b => (if a then (1 : Int) else 0) == b
  | .int a, .bool b => a == (if b then (1 : Int) else 0)
  | .null, .null => true
  | .dict _ es1, .dict _ es2 =>
      es1.length == es2.length && pyEqEntriesIn es1 es2
  | .list _ xs, .list _ ys => pyEqList xs ys
  | _, _ => false

/-- Every key of the first entry list is present in the second with a
`pyEqV`-equal value (one half of Python dict equality; combined with the
length check it is the whole of it for duplicate-free dicts). -/
def pyEqEntriesIn : List (String × PyVal) → List (String × PyVal) → Bool
  | [], _ => true
  | (k, v) :: r, es2 =>
      (match lookupE es2 k with
       | some w => pyEqV v w
       | none => false) && pyEqEntriesIn r es2

/-- Element-wise Python `==` on lists. -/
def pyEqList : List PyVal → List PyVal → Bool
  | [], [] => true
  | x :: xs, y :: ys => pyEqV x y && pyEqList xs ys
  | _, _ => false

end

/-- Python dict equality on entry lists (`d1 == d2`). -/
def pyEqDict (es1 es2 : List (String × PyVal)) : Bool :=
  es1.length == es2.length && pyEqEntriesIn es1 es2

/-- Model of Python `d[k] = v`: overwrite the existing slot in place,
otherwise append the new pair. -/
def dictSet : List (String × PyVal) → String → PyVal → List (String × PyVal)
  | [], k, v => [(k, v)]
  | (k0, v0) :: r, k, v =>
      if k0 == k then (k0, v) :: r else (k0, v0) :: dictSet r k v

/-- Model of Python `d.update(other)`: set each of `other`'s pairs in
order. -/
def dictUpdate (es upd : List (String × PyVal)) : List (String × PyVal) :=
  upd.foldl (fun acc kv => dictSet acc kv.1 kv.2) es

/-- Model of Python `d.pop(k, default)`'s removal effect: drop the entry
with key `k` (keys are unique). -/
def dictRemove (es : List (String × PyVal)) (k : String) :
    List (String × PyVal) :=
  es.filter (fun kv => kv.1 != k)

/-- Membership of a key (Python `k in d`). -/
def dictHas (es : List (String × PyVal)) (k : String) : Bool :=
  (lookupE es k).isSome

/-! ## CallBackList.sort (utils.py:88-91)

An instrumented list together with the number of callback invocations it
has performed.  For the sort claim the element type is `Int` (Python
sorts any homogeneous comparable list; the claim's inputs are integer
lists).
-/

/-- A `CallBackList` for the sort claim: its elements and the number of
times its change callback has fired. -/
structure CBList where
  elems : List Int
  callbackCalls : Nat

/-- Model of CPython `list.sort(key=key, reverse=reverse)`: stable
ascending sort by key; `reverse=True` is implemented by reversing the
list before and after an ascending sort (which is what CPython's
`listsort` does, giving a stable descending order).  `key=None` compares
elements directly. -/
def pyListSort (xs : List Int) (key : Option (Int → Int)) (reverse : Bool) :
    List Int :=
  let k := key.getD id
  if reverse then
    (List.insertionSort (fun a b => k a ≤ k b) xs.reverse).reverse
  else
    List.insertionSort (fun a b => k a ≤ k b) xs

/-- Model of `CallBackList.sort` (utils.py:88-91): the source calls
`super().sort(key=None, reverse=False)` — passing the literals `None` and
`False` rather than the `key` and `reverse` arguments it received — and
then fires the callback once. -/
def CBList.sort (l : CBList) (key : Option (Int → Int)) (reverse : Bool) :
    CBList :=
  { elems := pyListSort l.elems none false,
    callbackCalls := l.callbackCalls + 1 }

/-- C9: the claim states `CallBackList.sort(key=k, reverse=r)` orders the
list exactly as a plain `list.sort(key=k, reverse=r)` would and fires the
callback once.  On `[1, 2]` with `reverse=True` the code leaves the list
as `[1, 2]` while a plain sort with those arguments yields `[2, 1]`: the
source forwards the literals `None`/`False` instead of its `key`/`reverse`
parameters.  The callback does fire exactly once. -/
theorem C9_sort_ignores_arguments :
    (CBList.sort ⟨[1, 2], 0⟩ none true).elems = [1, 2] ∧
    pyListSort [1, 2] none true = [2, 1] ∧
    (CBList.sort ⟨[1, 2], 0⟩ none true).callbackCalls = 1 := by
  refine ⟨?_, ?_, rfl⟩ <;> decide

/-! ## Layers (layers.py)

The concrete layer classes needed by the claims are `ImageLayer`,
`SegmentationLayer`, `AnnotationLayer` and `MeshLayer`.  A layer is its
kind (the concrete Python class), its `_state` dict, whether `_viewer`
is set (`linked`) and its `_lock` flag.  The graphene and local-data
subclasses are not reachable from any claim and are not modelled.
-/

/-- Python exception kinds raised by the modelled code. -/
inductive PyErr : Type where
  | valueError : PyErr
  | typeError : PyErr
  | attributeError : PyErr
  | notImplementedError : PyErr
  | keyError : PyErr
  | indexError : PyErr
  | connectionError : PyErr
deriving DecidableEq

/-- The concrete layer class. -/
inductive LayerKind : Type where
  | image : LayerKind
  | segmentation : LayerKind
  | annot : LayerKind
  | mesh : LayerKind
deriving DecidableEq

/-- A layer: concrete class, `_state`, whether `_viewer` is set, and the
`_lock` flag (layers.py:52-56). -/
structure Layer where
  kind : LayerKind
  lstate : List (String × PyVal)
  linked : Bool
  lock : Bool

/-- `ImageLayer.DEFAULTS` (layers.py:246-250). -/
def ImageLayer.DEFAULTS : List (String × PyVal) :=
  [("source", .str ""), ("type", .str "image"), ("blend", .str "default"),
   ("shaderControls", .dict false []), ("name", .str "img")]

/-- `SegmentationLayer.DEFAULTS` (layers.py:276-280). -/
def SegmentationLayer.DEFAULTS : List (String × PyVal) :=
  [("source", .str ""), ("type", .str "segmentation"),
   ("selectedAlpha", .float "0.14"), ("segments", .list false []),
   ("name", .str "segmentation")]

/-- `AnnotationLayer.DEFAULTS` (layers.py:430-432). -/
def AnnotationLayer.DEFAULTS : List (String × PyVal) :=
  [("source", .str ""), ("type", .str "annotation"), ("name", .str "annotations")]

/-- `MeshLayer.DEFAULTS` (layers.py:464-466). -/
def MeshLayer.DEFAULTS : List (String × PyVal) :=
  [("source", .str ""), ("type", .str "mesh"), ("name", .str "meshes")]

/-- The class defaults, by kind. -/
def layerDefaults : LayerKind → List (String × PyVal)
  | .image => ImageLayer.DEFAULTS
  | .segmentation => SegmentationLayer.DEFAULTS
  | .annot => AnnotationLayer.DEFAULTS
  | .mesh => MeshLayer.DEFAULTS

/-- `MUST_HAVE` for the modelled classes: all four set
`MUST_HAVE = ['name', 'source']` (layers.py:251, 281, 433, 467).
`MUST_NOT_HAVE` and `MUST_ONLY_HAVE` are empty for every modelled
class. -/
def layerMustHave : LayerKind → List String
  | _ => ["name", "source"]

/-- `BaseLayer.validate_properties` (layers.py:229-240): the
`MUST_ONLY_HAVE`/`MUST_NOT_HAVE` loops are vacuous for the modelled
classes; the first missing `MUST_HAVE` key raises `ValueError`. -/
def validate_properties (l : Layer) : Option PyErr :=
  if (layerMustHave l.kind).all (fun k => dictHas l.lstate k) then none
  else some .valueError

/-- The `segments` row of `SegmentationLayer.STATE_CONVERSION`
(layers.py:284-289).  Dispatch is on `type(value)` exactly: an `int`
becomes `[str(x)]`, a `str` becomes `[x]`, a plain `list` becomes
`[str(s) for s in x]` (a `CallBackList` has a different `type()` and is
not converted), and any other type is stored unchanged.  The
`np.ndarray` row (`x.astype(str).tolist()`) is modelled separately by
`ndarraySegmentsConversion` since an ndarray is not a state value; the
`segmentColors`/`segmentDefaultColor` rows delegate to
`matplotlib.colors.to_hex`, an external collaborator no claim
exercises, and are not modelled. -/
def STATE_CONVERSION_segments : PyVal → PyVal
  | .int n => .list false [.str (toString n)]
  | .str s => .list false [.str s]
  | .list false xs => .list false (xs.map (fun s => .str (pyStr s)))
  | v => v

/-- The `np.ndarray` row of the `segments` conversion
(layers.py:288): `x.astype(str).tolist()` on an integer array. -/
def ndarraySegmentsConversion (xs : List Int) : PyVal :=
  .list false (xs.map (fun n => .str (toString n)))

/-- The value conversion applied by `BaseLayer.__setitem__`
(layers.py:122-125): only `SegmentationLayer` declares conversions, and
only the `segments` key is reachable from the claims. -/
def stateConvertFor (kind : LayerKind) (name : String) (value : PyVal) : PyVal :=
  match kind, name with
  | .segmentation, "segments" => STATE_CONVERSION_segments value
  | _, _ => value

/-- `BaseLayer.__setitem__` on an unlinked layer (layers.py:120-127):
convert the value when a conversion row matches its type, then plain
dict assignment (`self._state` is a plain dict when `_viewer` is not
set, so no callback fires).  The linked variant lives in the World model
below. -/
def BaseLayer.setItem (l : Layer) (name : String) (value : PyVal) : Layer :=
  { l with lstate := dictSet l.lstate name (stateConvertFor l.kind name value) }

/-- The shared constructor path of the concrete layer classes
(layers.py:255-259, 302-314, 437-441, 471-475 and
`BaseLayer.__init__`, layers.py:52-56): `props = deepcopy(DEFAULTS)`,
`props['source'] = source`, `props.update(**kwargs)`, then
`self.state = props` through the state setter — `_viewer` is `None`, so
the dict is stored directly, without any `STATE_CONVERSION` — and
finally `validate_properties()`.  (The graphene warning in
`SegmentationLayer.__init__` only logs.) -/
def layerInit (kind : LayerKind) (source : PyVal)
    (kwargs : List (String × PyVal)) : Except PyErr Layer :=
  let props := dictUpdate (dictSet (layerDefaults kind) "source" source) kwargs
  let l : Layer := ⟨kind, props, false, false⟩
  match validate_properties l with
  | some e => .error e
  | none => .ok l

/-- `SegmentationLayer(source, **kwargs)`. -/
def SegmentationLayer.init (source : PyVal) (kwargs : List (String × PyVal)) :
    Except PyErr Layer :=
  layerInit .segmentation source kwargs

/-- `ImageLayer(source, **kwargs)`. -/
def ImageLayer.init (source : PyVal) (kwargs : List (String × PyVal)) :
    Except PyErr Layer :=
  layerInit .image source kwargs

/-- The concrete segmentation layer of claim C2's scenario, with the
`segments` value it actually stores. -/
def c2Constructed : Except PyErr Layer :=
  SegmentationLayer.init (.str "s")
    [("segments", .list false [.int 1, .int 2, .int 3])]

/-- A segmentation layer with defaults only, used to exercise the
assignment path. -/
def c2Plain : Except PyErr Layer := SegmentationLayer.init (.str "s") []

/-- C2: the claim states segment identifiers are stored as lists of
strings however supplied — in particular that
`SegmentationLayer(source="s", segments=[1,2,3])` stores
`["1","2","3"]`.  The constructor path assigns the whole kwargs dict
through the `state` setter, bypassing `STATE_CONVERSION`, so it stores
the raw ints `[1, 2, 3]`; only item assignment
(`layer["segments"] = ...`) normalizes, as the remaining conjuncts
show for int, string, list and ndarray inputs. -/
theorem C2_constructor_skips_segment_normalization :
    (c2Constructed.map (fun l => lookupE l.lstate "segments")
      = .ok (some (.list false [.int 1, .int 2, .int 3]))) ∧
    (c2Plain.map (fun l =>
        lookupE (BaseLayer.setItem l "segments"
          (.list false [.int 1, .int 2, .int 3])).lstate "segments")
      = .ok (some (.list false [.str "1", .str "2", .str "3"]))) ∧
    (c2Plain.map (fun l =>
        lookupE (BaseLayer.setItem l "segments" (.int 42)).lstate "segments")
      = .ok (some (.list false [.str "42"]))) ∧
    (c2Plain.map (fun l =>
        lookupE (BaseLayer.setItem l "segments" (.str "7")).lstate "segments")
      = .ok (some (.list false [.str "7"]))) ∧
    ndarraySegmentsConversion [1, 2, 3]
      = .list false [.str "1", .str "2", .str "3"] := by
  refine ⟨rfl, rfl, rfl, rfl, rfl⟩

/-! ## Scenes (scenes.py)

A scene is its concrete class tag (`"Scene"` or `"LocalScene"`), the
`base_url`, its own `_state` dict, the owned `_layers` list and the
`_stale` flag.
-/

/-- A scene (scenes.py:38-56). -/
structure Scene where
  tag : String
  baseUrl : String
  sstate : List (String × PyVal)
  layers : List Layer
  stale : Bool
  lock : Bool

/-- `Scene(base_url, **kwargs)` (scenes.py:51-56): the state setter marks
the scene stale and wraps the kwargs with the `set_stale` observer
(scenes.py:72-82).  The `lock` field is `LocalScene._lock`
(local.py:379), initially false; a plain `Scene` never reads it. -/
def Scene.init (baseUrl : String) (kwargs : List (String × PyVal)) : Scene :=
  { tag := "Scene", baseUrl := baseUrl, sstate := addCBEntries kwargs,
    layers := [], stale := true, lock := false }

/-- The layers of `scene._layers` whose `_state.get('name', None)`
compares `==` to the given string (scenes.py / layers.py:532-543). -/
def layersWithName (ls : List Layer) (nm : String) : List Layer :=
  ls.filter (fun l => pyEqV ((lookupE l.lstate "name").getD .null) (.str nm))

/-- `LayerManager.__contains__` (layers.py:523-530): non-strings are
never contained; for a string it calls `get_layer`, which raises
`AttributeError` both when no layer and when more than one layer carries
the name, and the `except AttributeError` turns either into `False` — so
membership holds exactly when the name occurs exactly once. -/
def layerManagerContains (ls : List Layer) (v : PyVal) : Bool :=
  match v with
  | .str nm => (layersWithName ls nm).length == 1
  | _ => false

/-- The displayed name of a layer (`str(l.name)`, i.e.
`str(self._state['name'])`). -/
def layerNameStr (l : Layer) : String :=
  pyStr ((lookupE l.lstate "name").getD .null)

/-- Python `list.insert(index, a)` for a non-negative index: positions
past the end append (unlike `List.insertIdx`, which would drop the
element). -/
def pyInsert (xs : List α) (n : Nat) (a : α) : List α :=
  xs.take n ++ a :: xs.drop n

/-- The renaming loop of `Scene.add_layers` (scenes.py:342-350):
`i = 2` and while `l["name"] in self.layers`, set
`l["name"] = f"{org_name}-{i}"` and increment `i` (the `if i <= 2`
branches of the source are identical).  The `while` is modelled with
fuel; `add_layers` passes enough fuel for the loop's exit (at most
`len(layers)` names are taken, and successive candidates are
distinct). -/
def renameLoop (fuel : Nat) (ls : List Layer) (org : String) (l : Layer)
    (i : Nat) : Layer :=
  match fuel with
  | 0 => l
  | fuel + 1 =>
      if layerManagerContains ls ((lookupE l.lstate "name").getD .null) then
        renameLoop fuel ls org
          (BaseLayer.setItem l "name" (.str (org ++ "-" ++ toString i))) (i + 1)
      else l

/-- One iteration of `Scene.add_layers`'s outer loop (scenes.py:338-358):
uniquify the incoming layer's name against the current layers, then
append, or insert at `index` and step `index` forward;
`self._stale = True`. -/
def addLayerOne (s : Scene) (l : Layer) (index : Option Nat) :
    Scene × Option Nat :=
  let org := layerNameStr l
  let l := renameLoop (s.layers.length + 2) s.layers org l 2
  match index with
  | none => ({ s with layers := s.layers ++ [l], stale := true }, none)
  | some ix => ({ s with layers := pyInsert s.layers ix l, stale := true },
      some (ix + 1))

/-- `Scene.add_layers(*layers, index=None)` (scenes.py:324-358). -/
def Scene.add_layers (s : Scene) (ls : List Layer) (index : Option Nat) :
    Scene :=
  (ls.foldl (fun acc l => addLayerOne acc.1 l acc.2) (s, index)).1

/-- An image layer named "x" (three identical copies are added in the C7
scenario). -/
def c7LayerX : Except PyErr Layer :=
  ImageLayer.init (.str "precomputed://gs://bucket/img") [("name", .str "x")]

/-- The scene obtained by adding three layers named "x" one after the
other to an empty scene. -/
def c7Scene : Except PyErr Scene := do
  let l ← c7LayerX
  let s0 := Scene.init "https://neuroglancer-demo.appspot.com/" []
  let s1 := Scene.add_layers s0 [l] none
  let s2 := Scene.add_layers s1 [l] none
  let s3 := Scene.add_layers s2 [l] none
  pure s3

/-- C7: adding two layers named "x" to the same scene stores the names
"x" and "x-2", and adding a third layer named "x" stores it as "x-3";
the previously added layers keep their names. -/
theorem C7_add_layers_uniquifies_names :
    c7Scene.map (fun s => s.layers.map layerNameStr)
      = .ok ["x", "x-2", "x-3"] := rfl

/-- `Scene.__eq__` (scenes.py:128-133): `type(other) is not type(self)`
(the class tag) and then Python `==` of the two state dicts; the layer
lists are never consulted. -/
def Scene.eq (a b : Scene) : Bool :=
  (a.tag == b.tag) && pyEqDict a.sstate b.sstate

/-- C10: scene equality ignores layers entirely — for two scenes of the
same concrete type, `A == B` holds exactly when the state dicts compare
equal, and replacing either side's layer list (by one of any content or
length) does not change the comparison. -/
theorem C10_scene_eq_ignores_layers (a b : Scene) (h : a.tag = b.tag) :
    (Scene.eq a b = true ↔ pyEqDict a.sstate b.sstate = true) ∧
    (∀ la lb : List Layer,
      Scene.eq { a with layers := la } { b with layers := lb }
        = Scene.eq a b) := by
  constructor
  · unfold Scene.eq
    rw [h]
    simp
  · intro la lb
    rfl

/-- A bare layer used to make the witness scenes' layer lists differ. -/
def c10Layer : Layer :=
  ⟨.image, [("name", .str "a"), ("source", .str "src")], false, false⟩

/-- Witness for C10: two scenes with equal states but layer lists of
different lengths compare equal. -/
theorem C10_scene_eq_ignores_layers_witness :
    let a : Scene :=
      ⟨"Scene", "u", [("layout", .str "xy")], [c10Layer], false, false⟩
    let b : Scene := ⟨"Scene", "u", [("layout", .str "xy")], [], true, false⟩
    a.tag = b.tag ∧
    ((Scene.eq a b = true ↔ pyEqDict a.sstate b.sstate = true) ∧
      (∀ la lb : List Layer,
        Scene.eq { a with layers := la } { b with layers := lb }
          = Scene.eq a b)) ∧
    Scene.eq a b = true :=
  ⟨rfl, C10_scene_eq_ignores_layers _ _ rfl, rfl⟩

/-! ## Merge/combine engine (scenes.py:94-126, layers.py:141-145, 261-270,
316-326) -/

/-- `copy.deepcopy` of a layer goes through `BaseLayer.__getstate__`
(layers.py:102-111): `_viewer` is set to `None` and the state is
`remove_callback`-stripped; `_lock` is kept. -/
def Layer.deepcopy (l : Layer) : Layer :=
  { l with linked := false, lstate := remCBEntries l.lstate }

/-- `copy.deepcopy` of a scene (scenes.py:135-155): the layer manager is
rebuilt and each owned layer is deep-copied through its own
`__getstate__`; the scene's own state keeps its structure. -/
def Scene.deepcopy (s : Scene) : Scene :=
  { s with layers := s.layers.map Layer.deepcopy }

/-- `layer[k]` (`BaseLayer.__getitem__`, layers.py:129-133): missing keys
raise `AttributeError`. -/
def Layer.getItem (l : Layer) (k : String) : Except PyErr PyVal :=
  match lookupE l.lstate k with
  | some v => .ok v
  | none => .error .attributeError

/-- Python list concatenation of two state values (`+` raises
`TypeError` on non-lists). -/
def pyConcat : PyVal → PyVal → Except PyErr (List PyVal)
  | .list _ xs, .list _ ys => .ok (xs ++ ys)
  | _, _ => .error .typeError

/-- `list(set(xs))`: duplicates removed under Python `==`.  A Python
set's iteration order is unspecified (hash-based); it is modelled as
first-occurrence order, on which no claim depends (the one claim that
reaches this value shows it being discarded). -/
def pySetList (xs : List PyVal) : List PyVal :=
  xs.foldl (fun acc x => if acc.any (fun y => pyEqV y x) then acc
    else acc ++ [x]) []

/-- `ImageLayer.__or__` (layers.py:261-270): `NotImplementedError` on a
type or source mismatch, otherwise a deep copy of `self` whose state is
updated with `other`'s state. -/
def ImageLayer.or (self other : Layer) : Except PyErr Layer := do
  if other.kind ≠ self.kind then .error .notImplementedError
  else
    let s1 ← Layer.getItem self "source"
    let s2 ← Layer.getItem other "source"
    if pyEqV s1 s2 then
      let x := Layer.deepcopy self
      .ok { x with lstate := dictUpdate x.lstate other.lstate }
    else .error .notImplementedError

/-- `SegmentationLayer.__or__` (layers.py:316-326): `NotImplementedError`
on a type or source mismatch, otherwise a deep copy of `self` whose
`segments` are set (through `__setitem__`, hence re-normalized) to
`list(set(x['segments'] + other['segments']))`. -/
def SegmentationLayer.or (self other : Layer) : Except PyErr Layer := do
  if other.kind ≠ self.kind then .error .notImplementedError
  else
    let s1 ← Layer.getItem self "source"
    let s2 ← Layer.getItem other "source"
    if pyEqV s1 s2 then
      let x := Layer.deepcopy self
      let a ← Layer.getItem x "segments"
      let b ← Layer.getItem other "segments"
      let combined ← pyConcat a b
      .ok (BaseLayer.setItem x "segments" (.list false (pySetList combined)))
    else .error .notImplementedError

/-- `l2 | l1` dispatched on the concrete class; `BaseLayer.__or__`
(layers.py:141-145) raises `NotImplementedError` for the kinds without
an override. -/
def Layer.or (self other : Layer) : Except PyErr Layer :=
  match self.kind with
  | .image => ImageLayer.or self other
  | .segmentation => SegmentationLayer.or self other
  | _ => .error .notImplementedError

/-- The inner `for l2 in x.layers` loop of `Scene.__or__`
(scenes.py:113-122): for the first layer of matching class whose merge
does not raise `NotImplementedError`, mark `merged` and `break`.  The
statement `l2 |= l1` only rebinds the loop variable (`BaseLayer` defines
`__or__` but no `__ior__`, and both overrides return a fresh deep copy),
so the successfully merged layer object is discarded and the scene's
layer list is left unchanged; the loop result is just the `merged`
flag.  Errors other than `NotImplementedError` propagate
(`except BaseException: raise`). -/
def tryMergeInner : List Layer → Layer → Except PyErr Bool
  | [], _ => .ok false
  | l2 :: rest, l1 =>
      if l1.kind == l2.kind then
        match Layer.or l2 l1 with
        | .ok _ => .ok true
        | .error .notImplementedError => tryMergeInner rest l1
        | .error e => .error e
      else tryMergeInner rest l1

/-- `Scene.__or__` (scenes.py:104-126): deep-copy `self`, then for each
deep-copied layer of `other` either find a mergeable counterpart (whose
merge result is discarded, see `tryMergeInner`) or append it through
`add_layers` (renaming on collision). -/
def Scene.or (a b : Scene) : Except PyErr Scene :=
  (b.layers.map Layer.deepcopy).foldlM
    (fun x l1 => do
      let merged ← tryMergeInner x.layers l1
      if merged then pure x else pure (Scene.add_layers x [l1] none))
    (Scene.deepcopy a)

/-- A scene holding one segmentation layer with the given source and
segment list, built through the constructor and `add_layers`. -/
def c8SceneWith (source : String) (segs : List String) :
    Except PyErr Scene := do
  let l ← SegmentationLayer.init (.str source)
    [("name", .str "seg"), ("segments", .list false (segs.map PyVal.str))]
  pure (Scene.add_layers (Scene.init "u" []) [l] none)

/-- The merge of two same-source scenes from the C8 scenario. -/
def c8Merged : Except PyErr Scene := do
  let a ← c8SceneWith "s" ["1", "2"]
  let b ← c8SceneWith "s" ["2", "3"]
  Scene.or a b

/-- The merge of two different-source scenes from the C8 scenario. -/
def c8Different : Except PyErr Scene := do
  let a ← c8SceneWith "s" ["1", "2"]
  let b ← c8SceneWith "t" ["2", "3"]
  Scene.or a b

/-- C8: the claim states that merging two scenes holding segmentation
layers with byte-equal sources yields one layer whose segments are the
union of both sides.  The code computes that union inside
`SegmentationLayer.__or__` but `Scene.__or__` discards the result
(`l2 |= l1` rebinds the loop variable only), so the merged scene keeps
the first scene's segments `["1","2"]` instead of the union
`["1","2","3"]`.  The non-merge half of the claim does hold: with
different sources the second layer is appended, renamed "seg-2", and no
error escapes the combine. -/
theorem C8_scene_merge_discards_union :
    (c8Merged.map (fun s => s.layers.map (fun l => lookupE l.lstate "segments"))
      = .ok [some (.list false [.str "1", .str "2"])]) ∧
    (pySetList [.str "1", .str "2", .str "2", .str "3"]
      = [.str "1", .str "2", .str "3"]) ∧
    ((do
        let a ← c8SceneWith "s" ["1", "2"]
        let b ← c8SceneWith "s" ["2", "3"]
        let la ← a.layers.head?.elim (Except.error PyErr.indexError) .ok
        let lb ← b.layers.head?.elim (Except.error PyErr.indexError) .ok
        let m ← SegmentationLayer.or la lb
        pure (lookupE m.lstate "segments"))
      = .ok (some (.list false [.str "1", .str "2", .str "3"]))) ∧
    (c8Different.map (fun s => s.layers.map layerNameStr)
      = .ok ["seg", "seg-2"]) := by
  refine ⟨rfl, rfl, rfl, rfl⟩

/-! ## JSON serialization (scenes.py:393-410)

`json.dumps(obj, indent=None, sort_keys=True)` is a stdlib collaborator;
it is modelled from its documented behavior: keys sorted at every level,
`", "`/`": "` separators, lowercase `true`/`false`/`null`, strings in
double quotes with backslash escaping (no reachable string contains
control characters), floats shown by their literal.
-/

/-- Lexicographic code-point comparison of strings (Python `str` `<=`,
used by `sort_keys`). -/
def strLeB (a b : String) : Bool :=
  strLeChars a.data b.data
where
  strLeChars : List Char → List Char → Bool
    | [], _ => true
    | _ :: _, [] => false
    | c :: cs, d :: ds => if c = d then strLeChars cs ds else decide (c < d)

/-- Stable insertion of a pair into a key-sorted list. -/
def insertPair (p : String × PyVal) :
    List (String × PyVal) → List (String × PyVal)
  | [] => [p]
  | q :: r => if strLeB p.1 q.1 then p :: q :: r else q :: insertPair p r

/-- Stable ascending sort of dict entries by key (`sorted(d.items())`
as performed by `sort_keys=True`). -/
def sortPairs : List (String × PyVal) → List (String × PyVal)
  | [] => []
  | p :: r => insertPair p (sortPairs r)

mutual

/-- Recursively sort every dict's entries by key, as
`json.dumps(..., sort_keys=True)` does while emitting. -/
def sortKeysV : PyVal → PyVal
  | .dict w es => .dict w (sortPairs (sortKeysEntries es))
  | .list w xs => .list w (sortKeysList xs)
  | v => v

/-- `sortKeysV` over dict entries. -/
def sortKeysEntries : List (String × PyVal) → List (String × PyVal)
  | [] => []
  | (k, v) :: r => (k, sortKeysV v) :: sortKeysEntries r

/-- `sortKeysV` over list elements. -/
def sortKeysList : List PyVal → List PyVal
  | [] => []
  | v :: r => sortKeysV v :: sortKeysList r

end

/-- JSON string escaping over a character list (backslash and double
quote; no reachable string contains control characters). -/
def jsonEscapeChars : List Char → List Char
  | [] => []
  | c :: r =>
      (if c = '"' then ['\\', '"']
       else if c = '\\' then ['\\', '\\']
       else [c]) ++ jsonEscapeChars r

/-- JSON string escaping. -/
def jsonEscape (s : String) : String :=
  ⟨jsonEscapeChars s.data⟩

/-- Scanning loop of Python `str.replace`: left-to-right, non-overlapping
occurrences of `p :: ps` are replaced by `rep`.  The loop consumes at
least one character per step, so running it with the input's length as
fuel (as `pyReplace` does) is exact; the fuel only makes the recursion
structural. -/
def replaceGo (p : Char) (ps rep : List Char) : Nat → List Char → List Char
  | 0, cs => cs
  | _ + 1, [] => []
  | fuel + 1, c :: rest =>
      if (p :: ps).isPrefixOf (c :: rest) then
        rep ++ replaceGo p ps rep fuel (rest.drop ps.length)
      else
        c :: replaceGo p ps rep fuel rest

/-- Model of Python `s.replace(pat, rep)` (the modelled code never calls
it with an empty pattern). -/
def pyReplace (s pat rep : String) : String :=
  match pat.data with
  | [] => s
  | p :: ps => ⟨replaceGo p ps rep.data s.data.length s.data⟩

mutual

/-- Emission phase of `json.dumps(obj, indent=None)`: entries in the
given order with `", "` and `": "` separators. -/
def jsonDumpsRaw : PyVal → String
  | .str s => "\"" ++ jsonEscape s ++ "\""
  | .int n => toString n
  | .float lit => lit
  | .bool b => if b then "true" else "false"
  | .null => "null"
  | .dict _ es => "\x7b" ++ jsonDumpsEntries es ++ "\x7d"
  | .list _ xs => "[" ++ jsonDumpsList xs ++ "]"

/-- Emission of dict entries. -/
def jsonDumpsEntries : List (String × PyVal) → String
  | [] => ""
  | [(k, v)] => "\"" ++ jsonEscape k ++ "\": " ++ jsonDumpsRaw v
  | (k, v) :: r =>
      "\"" ++ jsonEscape k ++ "\": " ++ jsonDumpsRaw v ++ ", "
        ++ jsonDumpsEntries r

/-- Emission of list elements. -/
def jsonDumpsList : List PyVal → String
  | [] => ""
  | [v] => jsonDumpsRaw v
  | v :: r => jsonDumpsRaw v ++ ", " ++ jsonDumpsList r

end

/-- `json.dumps(v, indent=None, sort_keys=True)`. -/
def jsonDumps (v : PyVal) : String :=
  jsonDumpsRaw (sortKeysV v)

/-- `BaseLayer.as_dict` (layers.py:148-150): the state with the observer
instrumentation stripped. -/
def Layer.asDict (l : Layer) : PyVal :=
  .dict false (remCBEntries l.lstate)

/-- `Scene.as_dict` (scenes.py:393-397): strip the callbacks from the
scene state, set `state['layers']` to the layers' dicts, and strip
again. -/
def Scene.as_dict (s : Scene) : List (String × PyVal) :=
  let st := remCBEntries s.sstate
  let st := dictSet st "layers" (.list false (s.layers.map Layer.asDict))
  remCBEntries st

/-- `Scene.to_json(pretty=False)` (scenes.py:399-410):
`json.dumps(as_dict(), indent=None, sort_keys=True)` followed by the
three literal replacements `.replace("'", '"')`, `.replace("True",
"true")` and `.replace("False", "false")` — which run over the whole
document, string contents included.  (`pretty=True` only changes the
indentation and is not modelled.) -/
def Scene.to_json (s : Scene) : String :=
  pyReplace (pyReplace (pyReplace
    (jsonDumps (.dict false (Scene.as_dict s))) sq "\"") "True" "true")
    "False" "false"

/-- The C5 failing scene: a scene whose state holds the string value
"True". -/
def c5Scene : Scene := Scene.init "u" [("note", .str "True")]

/-- C5: the claim states `to_json` returns the canonical JSON encoding
of `as_dict()` (and hence parses back to it).  For a state containing
the string "True" the replacement pass rewrites the string's content,
so `to_json` returns the canonical encoding of a different dict — the
one whose "note" is "true" — and differs from the canonical encoding of
`as_dict()`; any parser satisfying `parse(dumps(d)) = d` therefore
returns the wrong dict.  (A value containing a single quote is mangled
into invalid JSON the same way by the first replacement.) -/
theorem C5_to_json_corrupts_strings :
    Scene.to_json c5Scene
      = jsonDumps (.dict false [("layers", .list false []),
          ("note", .str "true")]) ∧
    jsonDumps (.dict false (Scene.as_dict c5Scene))
      = jsonDumps (.dict false [("layers", .list false []),
          ("note", .str "True")]) ∧
    Scene.to_json c5Scene ≠ jsonDumps (.dict false (Scene.as_dict c5Scene)) := by
  refine ⟨rfl, rfl, ?_⟩
  decide

/-! ## URL and scene-string parsing (utils.py:164-246, scenes.py:232-255)

`urllib.parse.urlparse` is a stdlib collaborator, modelled from its
documented splitting rules: an optional scheme (a leading
alphanumeric/`+`/`-`/`.` run starting with a letter, followed by `:`),
an optional `//netloc` up to the next `/`, `?` or `#`, then the path up
to `?` or `#`, the query up to `#`, and the fragment.
-/

/-- Characters allowed in a URL scheme after the first. -/
def isSchemeChar (c : Char) : Bool :=
  c.isAlphanum || c = '+' || c = '-' || c = '.'

/-- Split a leading `scheme:` off a character list, if the prefix up to
the first colon is a valid scheme. -/
def splitScheme (cs : List Char) : Option (List Char × List Char) :=
  match cs with
  | [] => none
  | c :: rest =>
      if c.isAlpha then go [c] rest else none
where
  go (acc : List Char) : List Char → Option (List Char × List Char)
    | [] => none
    | c :: rest =>
        if c = ':' then some (acc, rest)
        else if isSchemeChar c then go (acc ++ [c]) rest
        else none

/-- The parsed components of a URL. -/
structure UrlParts where
  scheme : String
  netloc : String
  path : String
  query : String
  fragment : String

/-- Model of `urllib.parse.urlparse`. -/
def urlparse (s : String) : UrlParts :=
  let (scheme, rest) :=
    match splitScheme s.data with
    | some (sch, rest) => (String.mk (sch.map Char.toLower), rest)
    | none => ("", s.data)
  let (netloc, rest) :=
    match rest with
    | '/' :: '/' :: r =>
        let net := r.takeWhile (fun c => c ≠ '/' && c ≠ '?' && c ≠ '#')
        (String.mk net, r.drop net.length)
    | r => ("", r)
  let path := rest.takeWhile (fun c => c ≠ '?' && c ≠ '#')
  let rest := rest.drop path.length
  let query := rest.takeWhile (fun c => c ≠ '#')
  let rest := rest.drop query.length
  let fragment := match rest with
    | '#' :: r => String.mk r
    | _ => ""
  ⟨scheme, netloc, String.mk path,
    String.mk (query.filter (fun c => c ≠ '?')), fragment⟩

/-- `utils.is_url` (utils.py:232-238): scheme, netloc and path must all
be non-empty. -/
def is_url (s : String) : Bool :=
  let p := urlparse s
  p.scheme ≠ "" && p.netloc ≠ "" && p.path ≠ ""

/-- `utils.is_state_url` (utils.py:240-246). -/
def is_state_url (s : String) : Bool :=
  is_url s &&
    (pyInStr "json_url=http" s || pyInStr "!gs:// " s)
where
  /-- Python substring containment `pat in s`. -/
  pyInStr (pat s : String) : Bool :=
    match pat.data with
    | [] => true
    | p :: ps => go p ps s.data
  /-- Scan for an occurrence of `p :: ps`. -/
  go (p : Char) (ps : List Char) : List Char → Bool
    | [] => false
    | c :: rest => (p :: ps).isPrefixOf (c :: rest) || go p ps rest

/-- A value as it enters `parse_json_scene`: the callers pass either an
already-parsed dict or a string. -/
inductive SceneInput : Type where
  | dict : List (String × PyVal) → SceneInput
  | str : String → SceneInput

/-- The result of `parse_json_scene`: the function returns its input
dict, the dict decoded from a URL fragment — or, for a non-URL string,
the string itself, unparsed (utils.py:179 returns `scene` unchanged:
no `json.loads` is ever applied on that path). -/
inductive ParsedScene : Type where
  | dict : List (String × PyVal) → ParsedScene
  | str : String → ParsedScene

/-- `utils.parse_json_scene` (utils.py:164-179).  `fetchState` stands for
the two collaborator pipelines: the state-server fetch of
`parse_state_url` for state URLs and
`json.loads(unquote(urlparse(scene).fragment)[1:])` for ordinary URLs
(urllib `unquote` and the `json` parser are stdlib collaborators; both
produce a dict or raise).  A non-URL string falls through every branch
and is returned as the string it is. -/
def parse_json_scene (fetchState : String → Except PyErr (List (String × PyVal)))
    (scene : SceneInput) : Except PyErr ParsedScene :=
  match scene with
  | .dict es => .ok (.dict es)
  | .str s =>
      if is_url s then
        (fetchState s).map .dict
      else .ok (.str s)

/-- `LAYER_FACTORY` (scenes.py:446-452), restricted to the modelled
kinds; `"segmentation_with_graph"` maps to the graphene subclass, which
no claim reaches. -/
def LAYER_FACTORY : String → Option LayerKind
  | "segmentation" => some .segmentation
  | "mesh" => some .mesh
  | "image" => some .image
  | "annotation" => some .annot
  | _ => none

/-- `parse_layers` on a single record (scenes.py:455-476) with the
default flags `skip_unknown=False`, `skip_archived=True`:
non-dict records raise `TypeError`, archived records are dropped,
unknown types raise `ValueError`, and otherwise the factory constructor
is called with the record's fields (`source` positional, the rest as
kwargs; a record without `source` raises `TypeError` for the missing
argument). -/
def parse_layers_one (rec : PyVal) : Except PyErr (Option Layer) :=
  match rec with
  | .dict _ es =>
      if pyEqV ((lookupE es "archived").getD (.bool false)) (.bool true) then
        .ok none
      else
        match LAYER_FACTORY (match lookupE es "type" with
          | some (.str t) => t
          | _ => "NA") with
        | none => .error .valueError
        | some kind =>
            match lookupE es "source" with
            | none => .error .typeError
            | some src =>
                (layerInit kind src (dictRemove es "source")).map some
  | _ => .error .typeError

/-- `parse_layers` on the `layers` list (scenes.py:456-459). -/
def parse_layers (v : PyVal) : Except PyErr (List Layer) :=
  match v with
  | .list _ recs => (recs.mapM parse_layers_one).map (List.filterMap id)
  | rec => (parse_layers_one rec).map (fun o => o.elim [] (fun l => [l]))

/-- `Scene.from_string` (scenes.py:232-255): parse the input, pick the
base URL (every modelled class accepts `base_url`, so `has_url` is
true), then `state.pop("layers", [])` — which, when `parse_json_scene`
handed back an unparsed string, is an attribute access on a `str` and
raises `AttributeError` — then parse the layers, merge the remaining
keys into the new scene's state, and add the layers. -/
def Scene.from_string
    (fetchState : String → Except PyErr (List (String × PyVal)))
    (input : SceneInput) : Except PyErr Scene := do
  let state ← parse_json_scene fetchState input
  match state with
  | .str _ => .error .attributeError
  | .dict es =>
      let x :=
        match input with
        | .str s =>
            if is_url s then
              Scene.init (String.mk
                (s.data.takeWhile (fun c => c ≠ '#'))) []
            else Scene.init "https://neuroglancer-demo.appspot.com/" []
        | _ => Scene.init "https://neuroglancer-demo.appspot.com/" []
      let layersVal := (lookupE es "layers").getD (.list false [])
      let es := dictRemove es "layers"
      let layers ← parse_layers layersVal
      let x := { x with sstate := dictUpdate x.sstate es }
      pure (Scene.add_layers x layers none)

/-- The C6 failing input: a bare JSON document (no URL scheme), as a
Python string. -/
def c6Bare : String := "\x7b\"layers\": []\x7d"

/-- C6: the claim states `Scene.from_string` on a non-URL string holding
a JSON object decodes it and builds the scene.  In the code,
`parse_json_scene` returns such a string unchanged (it never applies
`json.loads` outside the URL branch), and `from_string` then calls
`.pop` on it, raising `AttributeError` — for any behavior of the
URL-fetching collaborator, since the branch is never taken
(`is_url` is false: the string has no scheme). -/
theorem C6_from_string_rejects_bare_json
    (fetchState : String → Except PyErr (List (String × PyVal))) :
    is_url c6Bare = false ∧
    parse_json_scene fetchState (.str c6Bare) = .ok (.str c6Bare) ∧
    Scene.from_string fetchState (.str c6Bare) = .error .attributeError := by
  refine ⟨rfl, rfl, rfl⟩

/-- Witness for C6 at a concrete collaborator (one that never succeeds,
exercising that the result does not depend on it). -/
theorem C6_from_string_rejects_bare_json_witness :
    is_url c6Bare = false ∧
    parse_json_scene (fun _ => .error .valueError) (.str c6Bare)
      = .ok (.str c6Bare) ∧
    Scene.from_string (fun _ => .error .valueError) (.str c6Bare)
      = .error .attributeError :=
  C6_from_string_rejects_bare_json (fun _ => .error .valueError)

/-! ## Viewer synchronization (layers.py:183-227, local.py:362-585)

A `World` pairs a `LocalScene` (a `Scene` whose `lock` field is
`_lock`) with the neuroglancer viewer collaborator.  The viewer's
contract (spec §6): `txn()` exposes the current JSON state document,
`set_state(state)` replaces it.  `setCount` counts `set_state` calls
(the pushes) and `setFails` injects a failure of the `set_state` round
trip, modelling a failing final push.
-/

/-- The remote viewer collaborator: its JSON state document, the number
of `set_state` calls it has received, and an injected failure flag for
the next `set_state`. -/
structure Viewer where
  vstate : List (String × PyVal)
  setCount : Nat
  setFails : Bool

/-- A `LocalScene` linked to its viewer. -/
structure World where
  scene : Scene
  viewer : Viewer

/-- `viewer.set_state(newDoc)`: replace the document and count the call,
or raise when the round trip fails (in which case the document is
unchanged). -/
def viewerSetState (w : World) (newDoc : List (String × PyVal)) :
    Option PyErr × World :=
  if w.viewer.setFails then (some .connectionError, w)
  else (none, { w with viewer :=
    { w.viewer with vstate := newDoc, setCount := w.viewer.setCount + 1 } })

/-- `state.get('layers', [])` on the viewer document (the document's
`layers` value is always a list). -/
def getViewerRecs (vstate : List (String × PyVal)) : List PyVal :=
  match lookupE vstate "layers" with
  | some (.list _ rs) => rs
  | _ => []

/-- `l.get('name', None)` on a viewer layer record (records are
dicts). -/
def recGetName : PyVal → PyVal
  | .dict _ es => (lookupE es "name").getD .null
  | _ => .null

/-- Replace an element of the layer list through a function (`in-place`
mutation of `scene._layers[i]`). -/
def updateAt : List Layer → Nat → (Layer → Layer) → List Layer
  | [], _, _ => []
  | l :: r, 0, f => f l :: r
  | l :: r, i + 1, f => l :: updateAt r i f

/-- Set the `_lock` flag of layer `i`. -/
def setLayerLock (w : World) (i : Nat) (b : Bool) : World :=
  { w with scene := { w.scene with
      layers := updateAt w.scene.layers i (fun l => { l with lock := b }) } }

/-- Set the scene's `_lock` flag. -/
def setSceneLock (w : World) (b : Bool) : World :=
  { w with scene := { w.scene with lock := b } }

/-- `state['layers'][ix[0]].update(upd)`: update the (unique) record
whose name matches, in place. -/
def updateFirstRec (nameVal : PyVal) (upd : List (String × PyVal)) :
    List PyVal → List PyVal
  | [] => []
  | r :: rest =>
      if pyEqV (recGetName r) nameVal then
        (match r with
         | .dict w es => .dict w (dictUpdate es upd)
         | other => other) :: rest
      else r :: updateFirstRec nameVal upd rest

/-- `BaseLayer.push_state` for layer `i` (layers.py:183-206): a locked
layer returns immediately; an unlinked layer raises `ValueError`;
otherwise the viewer document's record with this layer's name is
located (zero matches or more than one raise `ValueError`), updated
with the layer's `_state`, and the document is pushed with
`set_state`. -/
def pushStateLayer (w : World) (i : Nat) : Option PyErr × World :=
  match w.scene.layers[i]? with
  | none => (some .indexError, w)
  | some l =>
      if l.lock then (none, w)
      else if !l.linked then (some .valueError, w)
      else
        match lookupE l.lstate "name" with
        | none => (some .keyError, w)
        | some nameVal =>
            let recs := getViewerRecs w.viewer.vstate
            let hits := recs.filter (fun r => pyEqV (recGetName r) nameVal)
            if hits.length ≠ 1 then (some .valueError, w)
            else
              viewerSetState w (dictSet w.viewer.vstate "layers"
                (.list false (updateFirstRec nameVal l.lstate recs)))

/-- `BaseLayer.pull_state` for layer `i` (layers.py:208-227): symmetric
lookup; on success the matching record replaces the layer's `_state`
through the state setter, which re-wraps it with the push callback
(layers.py:73-79); non-dict records raise `TypeError` in the setter. -/
def pullStateLayer (w : World) (i : Nat) : Option PyErr × World :=
  match w.scene.layers[i]? with
  | none => (some .indexError, w)
  | some l =>
      if l.lock then (none, w)
      else if !l.linked then (some .valueError, w)
      else
        match lookupE l.lstate "name" with
        | none => (some .keyError, w)
        | some nameVal =>
            match (getViewerRecs w.viewer.vstate).filter
                (fun r => pyEqV (recGetName r) nameVal) with
            | [(.dict _ es)] =>
                (none, { w with scene := { w.scene with
                  layers := updateAt w.scene.layers i
                    (fun l0 => { l0 with lstate := addCBEntries es }) } })
            | [_] => (some .typeError, w)
            | _ => (some .valueError, w)

/-- `LocalScene.push_state(exclude_layers, ignore_lock)`
(local.py:524-542): a locked scene returns immediately unless
`ignore_lock`; otherwise the viewer document is updated with
`remove_callback` of either the scene's own state or its full
`as_dict()` and pushed with `set_state`. -/
def pushStateScene (w : World) (excludeLayers ignoreLock : Bool) :
    Option PyErr × World :=
  if w.scene.lock && !ignoreLock then (none, w)
  else
    let curr := if excludeLayers then w.scene.sstate else Scene.as_dict w.scene
    viewerSetState w (dictUpdate w.viewer.vstate (remCBEntries curr))

/-- `LocalScene.pull_state(exclude_layers)` (local.py:544-558): a locked
scene returns immediately; otherwise the viewer document (minus its
`layers` when excluded) is merged into the scene's state. -/
def pullStateScene (w : World) (excludeLayers : Bool) :
    Option PyErr × World :=
  if w.scene.lock then (none, w)
  else
    let state := if excludeLayers then dictRemove w.viewer.vstate "layers"
      else w.viewer.vstate
    (none, { w with scene := { w.scene with
      sstate := dictUpdate w.scene.sstate state } })

/-- The value as stored by `BaseLayer.__setitem__` (layers.py:120-127):
after conversion, a linked layer's `_state` is a `CallBackDict`, whose
`__setitem__` wraps the value with `add_on_change_callback`; an
unlinked layer's plain dict stores it as is. -/
def storedVal (l : Layer) (k : String) (v : PyVal) : PyVal :=
  if l.linked then add_on_change_callback (stateConvertFor l.kind k v)
  else stateConvertFor l.kind k v

/-- The store step of `BaseLayer.__setitem__` on layer `i`. -/
def setItemStore (w : World) (i : Nat) (k : String) (v : PyVal) (l : Layer) :
    World :=
  { w with scene := { w.scene with
      layers := updateAt w.scene.layers i
        (fun l0 => { l0 with lstate := dictSet l0.lstate k (storedVal l k v) }) } }

/-- `BaseLayer.__setitem__` on layer `i` of a linked scene
(layers.py:120-127), continued: after the store, a linked layer's
`CallBackDict` fires its `push_state` callback once; an unlinked store
fires nothing. -/
def setItemLayerWorld (w : World) (i : Nat) (k : String) (v : PyVal) :
    Option PyErr × World :=
  match w.scene.layers[i]? with
  | none => (some .indexError, w)
  | some l =>
      if l.linked then pushStateLayer (setItemStore w i k v l) i
      else (none, setItemStore w i k v l)

/-- The `for l in self.scene.layers` loop of `BundleUpdates.__enter__`
(local.py:575-577), over the layer indices: pull each layer's state and
lock it; a raising pull propagates, leaving the remaining layers
untouched. -/
def enterLoop (w : World) : List Nat → Option PyErr × World
  | [] => (none, w)
  | i :: rest =>
      match pullStateLayer w i with
      | (some e, w) => (some e, w)
      | (none, w) => enterLoop (setLayerLock w i true) rest

/-- `BundleUpdates.__enter__` (local.py:572-577): pull the scene state,
lock the scene, then pull and lock each owned layer. -/
def bundleEnter (w0 : World) : Option PyErr × World :=
  match pullStateScene w0 true with
  | (some e, w1) => (some e, w1)
  | (none, w1) =>
      let w1 := setSceneLock w1 true
      enterLoop w1 (List.range w1.scene.layers.length)

/-- Clear every layer's `_lock` (the loop on local.py:583-584). -/
def clearLayerLocks (w : World) : World :=
  { w with scene := { w.scene with
      layers := w.scene.layers.map (fun l => { l with lock := false }) } }

/-- `BundleUpdates.__exit__` (local.py:579-584): one final
`scene.push_state(exclude_layers=False, ignore_lock=True)`, then clear
the scene's lock and every layer's lock.  There is no `try`/`finally`:
when the push raises, the lock-clearing statements are never
executed. -/
def bundleExit (w : World) : Option PyErr × World :=
  match pushStateScene w false true with
  | (some e, w') => (some e, w')
  | (none, w') => (none, clearLayerLocks (setSceneLock w' false))

/-- A sequence of field writes on the scene's layers (the guarded body
of a bulk-update scope); a raising write is covered by a shorter write
list together with `bodyRaises` in `bundledRun`. -/
def runWrites (w : World) (writes : List (Nat × String × PyVal)) : World :=
  writes.foldl (fun w t => (setItemLayerWorld w t.1 t.2.1 t.2.2).2) w

/-- A full `with BundleUpdates(scene):` execution: enter (a raising
enter skips body and exit, per Python `with` semantics), the body's
writes, optionally a body exception, then exit — which always runs even
when the body raised; an exception raised by `__exit__` propagates in
place of the body's, while a body exception propagates when `__exit__`
returns normally (its return value `None` is falsy). -/
def bundledRun (w0 : World) (writes : List (Nat × String × PyVal))
    (bodyRaises : Bool) : Option PyErr × World :=
  match bundleEnter w0 with
  | (some e, w1) => (some e, w1)
  | (none, w1) =>
      let w2 := runWrites w1 writes
      let bodyErr := if bodyRaises then some PyErr.valueError else none
      match bundleExit w2 with
      | (some e, w3) => (some e, w3)
      | (none, w3) => (bodyErr, w3)

/-! ### Invariants of the bulk-update scope -/

/-- `updateAt` affects exactly the addressed position. -/
theorem updateAt_get (ls : List Layer) (i j : Nat) (f : Layer → Layer) :
    (updateAt ls i f)[j]? = if i = j then (ls[j]?).map f else ls[j]? := by
  induction ls generalizing i j with
  | nil => simp [updateAt]
  | cons l r ih =>
      cases i with
      | zero =>
          cases j with
          | zero => simp [updateAt]
          | succ j => simp [updateAt]
      | succ i =>
          cases j with
          | zero => simp [updateAt]
          | succ j => simpa [updateAt] using ih i j

/-- `updateAt` with a lock-preserving function keeps every layer
locked. -/
theorem updateAt_all_locked (ls : List Layer) (i : Nat) (f : Layer → Layer)
    (hf : ∀ l, (f l).lock = l.lock)
    (hall : ∀ l ∈ ls, l.lock = true) :
    ∀ l ∈ updateAt ls i f, l.lock = true := by
  intro l hl
  obtain ⟨j, hj⟩ := List.mem_iff_getElem?.mp hl
  rw [updateAt_get] at hj
  by_cases hij : i = j
  · rw [if_pos hij] at hj
    cases hx : ls[j]? with
    | none => rw [hx] at hj; cases hj
    | some l0 =>
        rw [hx] at hj
        have hfl : f l0 = l := by simpa using hj
        have := hall l0 (List.mem_iff_getElem?.mpr ⟨j, hx⟩)
        rw [← hfl, hf l0]
        exact this
  · rw [if_neg hij] at hj
    exact hall l (List.mem_iff_getElem?.mpr ⟨j, hj⟩)

/-- `LocalScene.pull_state` never raises, never touches the viewer, and
leaves the layer list and the lock flag as they were. -/
theorem pullStateScene_spec (w : World) (b : Bool) :
    (pullStateScene w b).1 = none ∧
    (pullStateScene w b).2.viewer = w.viewer ∧
    (pullStateScene w b).2.scene.layers = w.scene.layers ∧
    (pullStateScene w b).2.scene.lock = w.scene.lock := by
  unfold pullStateScene
  split <;> simp

/-- A layer pull never touches the viewer, the scene lock, or any
layer's lock flag. -/
theorem pullStateLayer_pres (w : World) (i : Nat) :
    (pullStateLayer w i).2.viewer = w.viewer ∧
    (pullStateLayer w i).2.scene.lock = w.scene.lock ∧
    ∀ j : Nat, ((pullStateLayer w i).2.scene.layers[j]?).map Layer.lock
      = (w.scene.layers[j]?).map Layer.lock := by
  unfold pullStateLayer
  split
  · exact ⟨rfl, rfl, fun j => rfl⟩
  · split
    · exact ⟨rfl, rfl, fun j => rfl⟩
    · split
      · exact ⟨rfl, rfl, fun j => rfl⟩
      · split
        · exact ⟨rfl, rfl, fun j => rfl⟩
        · split
          · refine ⟨rfl, rfl, ?_⟩
            intro j
            show ((updateAt w.scene.layers i _)[j]?).map Layer.lock = _
            rw [updateAt_get]
            by_cases hij : i = j
            · rw [if_pos hij]
              cases w.scene.layers[j]? <;> rfl
            · rw [if_neg hij]
          · exact ⟨rfl, rfl, fun j => rfl⟩
          · exact ⟨rfl, rfl, fun j => rfl⟩

/-- A push on a locked layer is a no-op: no state transfer, no error. -/
theorem pushStateLayer_locked (w : World) (i : Nat) (l : Layer)
    (hl : w.scene.layers[i]? = some l) (hlock : l.lock = true) :
    pushStateLayer w i = (none, w) := by
  unfold pushStateLayer
  rw [hl]
  simp [hlock]

/-- A pull on a locked layer is a no-op: no state transfer, no error. -/
theorem pullStateLayer_locked (w : World) (i : Nat) (l : Layer)
    (hl : w.scene.layers[i]? = some l) (hlock : l.lock = true) :
    pullStateLayer w i = (none, w) := by
  unfold pullStateLayer
  rw [hl]
  simp [hlock]

/-- On success, the `__enter__` layer loop leaves the viewer and the
scene lock untouched and every layer whose index was processed (or that
was already locked) locked; starting from a state where every index is
listed or already locked, all layers end locked. -/
theorem enterLoop_all_locked :
    ∀ (idxs : List Nat) (w w' : World),
      enterLoop w idxs = (none, w') →
      (∀ (j : Nat) (l : Layer), w.scene.layers[j]? = some l → j ∈ idxs ∨ l.lock = true) →
      w'.viewer = w.viewer ∧ w'.scene.lock = w.scene.lock ∧
        ∀ l ∈ w'.scene.layers, l.lock = true
  | [], w, w', h, hpre => by
      have hw : w = w' := by
        simpa [enterLoop] using h
      subst hw
      refine ⟨rfl, rfl, ?_⟩
      intro l hl
      obtain ⟨j, hj⟩ := List.mem_iff_getElem?.mp hl
      rcases hpre j l hj with hj' | hlock
      · simp at hj'
      · exact hlock
  | i :: rest, w, w', h, hpre => by
      rw [enterLoop] at h
      split at h
      · simp at h
      · next wmid hpull =>
          obtain ⟨hv, hk, hj⟩ := pullStateLayer_pres w i
          rw [hpull] at hv hk hj
          have hpre' : ∀ (j : Nat) (l : Layer),
              (setLayerLock wmid i true).scene.layers[j]? = some l →
              j ∈ rest ∨ l.lock = true := by
            intro j l hjl
            have hjl' : (updateAt wmid.scene.layers i
                (fun l0 => { l0 with lock := true }))[j]? = some l := hjl
            rw [updateAt_get] at hjl'
            by_cases hij : i = j
            · rw [if_pos hij] at hjl'
              cases hx : wmid.scene.layers[j]? with
              | none => rw [hx] at hjl'; cases hjl'
              | some l0 =>
                  rw [hx] at hjl'
                  have : ({ l0 with lock := true } : Layer) = l := by
                    simpa using hjl'
                  right
                  rw [← this]
            · rw [if_neg hij] at hjl'
              have hmap := hj j
              rw [hjl'] at hmap
              cases hx : w.scene.layers[j]? with
              | none => rw [hx] at hmap; cases hmap
              | some l0 =>
                  rw [hx] at hmap
                  have hlk : l.lock = l0.lock := by simpa using hmap
                  rcases hpre j l0 hx with hmem | hlock
                  · rcases List.mem_cons.mp hmem with hji | hjr
                    · exact absurd hji.symm hij
                    · exact Or.inl hjr
                  · exact Or.inr (hlk.trans hlock)
          obtain ⟨hv', hk', hall'⟩ :=
            enterLoop_all_locked rest (setLayerLock wmid i true) w' h hpre'
          refine ⟨hv'.trans hv, hk'.trans hk, hall'⟩

/-- On success, `BundleUpdates.__enter__` leaves the viewer untouched,
locks the scene, and locks every owned layer. -/
theorem bundleEnter_success (w0 w1 : World)
    (h : bundleEnter w0 = (none, w1)) :
    w1.viewer = w0.viewer ∧ w1.scene.lock = true ∧
      ∀ l ∈ w1.scene.layers, l.lock = true := by
  unfold bundleEnter at h
  obtain ⟨h1, h2, h3, h4⟩ := pullStateScene_spec w0 true
  split at h
  · next e wX heq =>
      rw [heq] at h1
      simp at h1
  · next wA heq =>
      rw [heq] at h2 h3
      have hpre : ∀ (j : Nat) (l : Layer),
          (setSceneLock wA true).scene.layers[j]? = some l →
          j ∈ List.range (setSceneLock wA true).scene.layers.length ∨
            l.lock = true := by
        intro j l hjl
        left
        exact List.mem_range.mpr (List.getElem?_eq_some.mp hjl).1
      obtain ⟨hv, hk, hall⟩ := enterLoop_all_locked _ _ _ h hpre
      refine ⟨hv.trans h2, hk, hall⟩

/-- While every layer is locked, a field write on any layer leaves the
viewer untouched (the `push_state` callback aborts on the lock), keeps
the scene lock, and keeps every layer locked. -/
theorem setItem_locked (w : World) (i : Nat) (k : String) (v : PyVal)
    (hall : ∀ l ∈ w.scene.layers, l.lock = true) :
    (setItemLayerWorld w i k v).2.viewer = w.viewer ∧
    (setItemLayerWorld w i k v).2.scene.lock = w.scene.lock ∧
    ∀ l ∈ (setItemLayerWorld w i k v).2.scene.layers, l.lock = true := by
  unfold setItemLayerWorld
  split
  · exact ⟨rfl, rfl, hall⟩
  · next l hl =>
      have hlock : l.lock = true :=
        hall l (List.mem_iff_getElem?.mpr ⟨i, hl⟩)
      have hall' : ∀ l' ∈ (setItemStore w i k v l).scene.layers,
          l'.lock = true :=
        updateAt_all_locked _ _ _ (fun _ => rfl) hall
      cases hlnk : l.linked with
      | false =>
          simp only [hlnk, Bool.false_eq_true, if_false]
          exact ⟨rfl, rfl, hall'⟩
      | true =>
          simp only [hlnk, if_true]
          have hget : (setItemStore w i k v l).scene.layers[i]?
              = (w.scene.layers[i]?).map
                (fun l0 => { l0 with
                  lstate := dictSet l0.lstate k (storedVal l k v) }) := by
            show (updateAt _ _ _)[i]? = _
            rw [updateAt_get, if_pos rfl]
          rw [hl] at hget
          rw [pushStateLayer_locked _ i _ hget hlock]
          exact ⟨rfl, rfl, hall'⟩

/-- While every layer is locked, a whole sequence of field writes leaves
the viewer untouched, keeps the scene lock, and keeps every layer
locked. -/
theorem runWrites_locked :
    ∀ (writes : List (Nat × String × PyVal)) (w : World),
      (∀ l ∈ w.scene.layers, l.lock = true) →
      (runWrites w writes).viewer = w.viewer ∧
      (runWrites w writes).scene.lock = w.scene.lock ∧
      ∀ l ∈ (runWrites w writes).scene.layers, l.lock = true
  | [], w, hall => ⟨rfl, rfl, hall⟩
  | t :: rest, w, hall => by
      obtain ⟨h1, h2, h3⟩ := setItem_locked w t.1 t.2.1 t.2.2 hall
      obtain ⟨ih1, ih2, ih3⟩ :=
        runWrites_locked rest (setItemLayerWorld w t.1 t.2.1 t.2.2).2 h3
      have hstep : runWrites w (t :: rest)
          = runWrites (setItemLayerWorld w t.1 t.2.1 t.2.2).2 rest := rfl
      rw [hstep]
      exact ⟨ih1.trans h1, ih2.trans h2, ih3⟩

/-- When the viewer's `set_state` round trip fails, `__exit__` raises out
of the final push, returning the world unchanged: no lock is
cleared. -/
theorem bundleExit_fail (w : World) (h : w.viewer.setFails = true) :
    bundleExit w = (some .connectionError, w) := by
  unfold bundleExit pushStateScene viewerSetState
  simp [h]

/-- When the final push succeeds, `__exit__` performs exactly one
`set_state` and clears the scene lock and every layer lock. -/
theorem bundleExit_ok (w : World) (h : w.viewer.setFails = false) :
    (bundleExit w).1 = none ∧
    (bundleExit w).2.scene.lock = false ∧
    (∀ l ∈ (bundleExit w).2.scene.layers, l.lock = false) ∧
    (bundleExit w).2.viewer.setCount = w.viewer.setCount + 1 := by
  unfold bundleExit pushStateScene viewerSetState clearLayerLocks setSceneLock
  simp [h]

/-- C4: for a layer linked to a viewer, while its `_lock` flag is set
both `push_state` and `pull_state` return without transferring state
and without raising; consequently, inside a bulk-update scope (after a
successful `__enter__`, which locks everything) no intermediate field
write triggers a viewer push — after any prefix of the writes the
viewer's `set_state` count is unchanged — and exactly one push happens
at scope exit. -/
theorem C4_locked_layer_sync_noop
    (w : World) (i : Nat) (l : Layer)
    (hl : w.scene.layers[i]? = some l) (hlink : l.linked = true)
    (hlock : l.lock = true)
    (w0 w1 : World) (writes : List (Nat × String × PyVal))
    (henter : bundleEnter w0 = (none, w1))
    (hfail : w0.viewer.setFails = false) :
    (pushStateLayer w i = (none, w) ∧ pullStateLayer w i = (none, w)) ∧
    (∀ k : Nat, (runWrites w1 (writes.take k)).viewer.setCount
        = w0.viewer.setCount) ∧
    ((bundleExit (runWrites w1 writes)).1 = none ∧
      (bundleExit (runWrites w1 writes)).2.viewer.setCount
        = w0.viewer.setCount + 1) := by
  obtain ⟨hv, hk, hall⟩ := bundleEnter_success w0 w1 henter
  refine ⟨⟨pushStateLayer_locked w i l hl hlock,
    pullStateLayer_locked w i l hl hlock⟩, ?_, ?_⟩
  · intro k
    obtain ⟨hw1, _, _⟩ := runWrites_locked (writes.take k) w1 hall
    rw [hw1, hv]
  · obtain ⟨hw1, _, hall1⟩ := runWrites_locked writes w1 hall
    have hfail2 : (runWrites w1 writes).viewer.setFails = false := by
      rw [hw1, hv]; exact hfail
    obtain ⟨e1, _, _, c1⟩ := bundleExit_ok (runWrites w1 writes) hfail2
    refine ⟨e1, ?_⟩
    rw [c1, hw1, hv]

/-- A linked, unlocked segmentation layer whose record exists once in
the viewer document. -/
def readyLayer : Layer :=
  ⟨.segmentation, [("name", .str "L"), ("source", .str "s")], true, false⟩

/-- A world ready to enter a bulk-update scope: unlocked scene, one
linked layer, healthy viewer. -/
def readyWorld : World :=
  ⟨⟨"LocalScene", "u", [("layout", .str "xy")], [readyLayer], false, false⟩,
   ⟨[("layers", .list false [.dict false [("name", .str "L")]])], 0, false⟩⟩

/-- The same layer, locked (as inside a bulk-update scope). -/
def lockedLayer : Layer :=
  ⟨.segmentation, [("name", .str "L"), ("source", .str "s")], true, true⟩

/-- A world inside a bulk-update scope (scene and layer locked) whose
viewer `set_state` round trip fails. -/
def lockedWorld : World :=
  ⟨⟨"LocalScene", "u", [("layout", .str "xy")], [lockedLayer], false, true⟩,
   ⟨[("layers", .list false [.dict false [("name", .str "L")]])], 0, true⟩⟩

/-- Witness for C4: the locked layer's push and pull are no-ops; in a
concrete bundled run with one field write, the write leaves the
`set_state` count at 0 and exit performs exactly one push. -/
theorem C4_locked_layer_sync_noop_witness :
    lockedWorld.scene.layers[0]? = some lockedLayer ∧
    lockedLayer.linked = true ∧ lockedLayer.lock = true ∧
    bundleEnter readyWorld = (none, (bundleEnter readyWorld).2) ∧
    readyWorld.viewer.setFails = false ∧
    (pushStateLayer lockedWorld 0 = (none, lockedWorld) ∧
      pullStateLayer lockedWorld 0 = (none, lockedWorld)) ∧
    (runWrites (bundleEnter readyWorld).2
        ([(0, "tab", PyVal.str "segments")].take 1)).viewer.setCount
      = readyWorld.viewer.setCount ∧
    ((bundleExit (runWrites (bundleEnter readyWorld).2
        [(0, "tab", PyVal.str "segments")])).1 = none ∧
      (bundleExit (runWrites (bundleEnter readyWorld).2
        [(0, "tab", PyVal.str "segments")])).2.viewer.setCount
        = readyWorld.viewer.setCount + 1) := by
  have h := C4_locked_layer_sync_noop lockedWorld 0 lockedLayer rfl rfl rfl
    readyWorld (bundleEnter readyWorld).2 [(0, "tab", PyVal.str "segments")]
    rfl rfl
  exact ⟨rfl, rfl, rfl, rfl, rfl, h.1, h.2.1 1, h.2.2⟩

/-- C3, counterexample: with the viewer's `set_state` failing, exiting
the bulk-update scope raises out of the final push and leaves both the
scene's `_lock` and the layer's `_lock` set — `__exit__`
(local.py:579-584) has no `try`/`finally`, so the lock-clearing lines
after the push never run, contradicting the claim that the failure
propagates only after all locks are cleared. -/
theorem C3_push_failure_leaves_locks_set :
    bundleExit lockedWorld = (some PyErr.connectionError, lockedWorld) ∧
    lockedWorld.scene.lock = true ∧
    lockedWorld.scene.layers.map Layer.lock = [true] :=
  ⟨rfl, rfl, rfl⟩

/-- C3, amended: exiting a `BundleUpdates` scope always runs `__exit__`
and attempts the single final push, even when the guarded body raised;
when the push succeeds, every `_lock` (scene and layers) is cleared,
exactly one `set_state` happens, and the body's exception (if any)
propagates; but when the final push itself fails, its exception
propagates immediately — even replacing the body's — and the scene and
all layer locks are left set. -/
theorem C3_bundle_exit_behavior
    (w0 w1 : World) (writes : List (Nat × String × PyVal)) (bodyRaises : Bool)
    (henter : bundleEnter w0 = (none, w1)) :
    (w0.viewer.setFails = false →
      (bundledRun w0 writes bodyRaises).1
          = (if bodyRaises then some PyErr.valueError else none) ∧
      (bundledRun w0 writes bodyRaises).2.scene.lock = false ∧
      (∀ l ∈ (bundledRun w0 writes bodyRaises).2.scene.layers,
        l.lock = false) ∧
      (bundledRun w0 writes bodyRaises).2.viewer.setCount
          = w0.viewer.setCount + 1) ∧
    (w0.viewer.setFails = true →
      (bundledRun w0 writes bodyRaises).1 = some PyErr.connectionError ∧
      (bundledRun w0 writes bodyRaises).2.scene.lock = true ∧
      ∀ l ∈ (bundledRun w0 writes bodyRaises).2.scene.layers,
        l.lock = true) := by
  obtain ⟨hv, hk, hall⟩ := bundleEnter_success w0 w1 henter
  obtain ⟨hw1, hk1, hall1⟩ := runWrites_locked writes w1 hall
  have hrun : bundledRun w0 writes bodyRaises
      = (match bundleExit (runWrites w1 writes) with
         | (some e, w3) => (some e, w3)
         | (none, w3) =>
            ((if bodyRaises then some PyErr.valueError else none), w3)) := by
    unfold bundledRun
    rw [henter]
  constructor
  · intro hfail
    have hfail2 : (runWrites w1 writes).viewer.setFails = false := by
      rw [hw1, hv]; exact hfail
    obtain ⟨e1, k1, all1, c1⟩ := bundleExit_ok (runWrites w1 writes) hfail2
    have hexit : bundleExit (runWrites w1 writes)
        = (none, (bundleExit (runWrites w1 writes)).2) := by
      rw [← e1]
    rw [hrun, hexit]
    refine ⟨rfl, k1, all1, ?_⟩
    rw [c1, hw1, hv]
  · intro hfail
    have hfail2 : (runWrites w1 writes).viewer.setFails = true := by
      rw [hw1, hv]; exact hfail
    rw [hrun, bundleExit_fail _ hfail2]
    refine ⟨rfl, ?_, hall1⟩
    rw [hk1, hk]

/-- Witness for C3's amended statement: a concrete run whose body raised
and whose push succeeds — exit still pushes once, clears the locks and
lets the body's exception propagate. -/
theorem C3_bundle_exit_behavior_witness :
    bundleEnter readyWorld = (none, (bundleEnter readyWorld).2) ∧
    readyWorld.viewer.setFails = false ∧
    (bundledRun readyWorld [] true).1 = some PyErr.valueError ∧
    (bundledRun readyWorld [] true).2.scene.lock = false ∧
    (bundledRun readyWorld [] true).2.viewer.setCount
      = readyWorld.viewer.setCount + 1 := by
  have h := (C3_bundle_exit_behavior readyWorld (bundleEnter readyWorld).2
    [] true rfl).1 rfl
  exact ⟨rfl, rfl, h.1, h.2.1, h.2.2.2⟩

end Nglscenes
